import Mathlib

/-!
Shallow embedding of the github-jira-integration program (src/unnamed/part_000
and src/main.go) and verification of its natural-language specification.

Strings are modelled as `List Char`; Go regular-expression matching of the two
concrete patterns used by the program (the issue-key pattern and the bug
pattern) is modelled by explicit leftmost scanning functions.
-/

/-- Strings of the program, modelled as lists of characters. -/
abbrev Str := List Char

/-- Coerce a Lean string literal to the `Str` model. -/
def str (s : String) : Str := s.data

/-- Decimal rendering of a natural number, as used by the fmt verb for
pull-request numbers. -/
def natStr (n : Nat) : Str := (Nat.repr n).data

/-! ## Configuration (src/unnamed/part_000 lines 33-45) -/

/-- The configured jira project prefixes (`var jiraProjects`). -/
def jiraProjects : List Str := [str "IR"]

/-- The team roster (`var team`), modelled as the list of member logins. -/
def team : List Str := [str "dmage", str "ricardomaraschini"]

/-- The tracked repositories (`var teamRepos`), modelled as the list of
full names. -/
def teamRepos : List Str := [str "openshift/cluster-image-registry-operator",
  str "openshift/image-registry"]

/-! ## Data model -/

/-- A pull-request label; the program reads only its name (`label.GetName()`). -/
structure Label where
  name : Str
deriving DecidableEq, Repr

/-- Read-only projection of a github pull request: exactly the fields the
program reads (`GetTitle`, `GetState`, `GetMerged`, `GetNumber`,
`Base.Repo.GetFullName`, `User.GetLogin`, `Labels`). -/
structure PullRequest where
  title : Str
  state : Str
  merged : Bool
  number : Nat
  baseRepoFullName : Str
  userLogin : Str
  labels : List Label
deriving DecidableEq, Repr

/-- Icon of a jira remote link (`jira.RemoteLinkIcon`). -/
structure RemoteLinkIcon where
  url16x16 : Str
  title : Str
deriving DecidableEq, Repr

/-- Object payload of a jira remote link (`jira.RemoteLinkObject`). -/
structure RemoteLinkObject where
  url : Str
  title : Str
  icon : RemoteLinkIcon
deriving DecidableEq, Repr

/-- A jira remote link (`jira.RemoteLink`). -/
structure RemoteLink where
  object : RemoteLinkObject
deriving DecidableEq, Repr

/-! ## Small helpers translated from the source -/

/-- `pullRequestLink` (part_000 lines 55-57): the canonical pull-request URL. -/
def pullRequestLink (pr : PullRequest) : Str :=
  str "https://github.com/" ++ pr.baseRepoFullName ++ str "/pull/" ++ natStr pr.number

/-- `pullRequestLinkTitle` (part_000 lines 59-61). -/
def pullRequestLinkTitle (pr : PullRequest) : Str :=
  pr.baseRepoFullName ++ str "#" ++ natStr pr.number

/-- `pullRequestLabels` (part_000 lines 63-69): the label names of a pull
request. -/
def pullRequestLabels (pr : PullRequest) : List Str :=
  pr.labels.map Label.name

/-- `contains` (part_000 lines 71-78): linear scan for an exactly equal
label name. -/
def contains : List Str → Str → Bool
  | [], _ => false
  | l :: ls, name => if l = name then true else contains ls name

/-! ## Regular-expression models

The program compiles `(IR-[0-9]+): ` (from the configured prefixes) and
`Bug [0-9]+: `, both UNanchored, and uses `FindStringSubmatch` resp.
`MatchString`, which scan for the leftmost occurrence anywhere in the title.
Because in both patterns the greedy `[0-9]+` is followed by the non-digit
`:`, greedy matching of the digit run is equivalent to taking the maximal
digit run. -/

/-- If `p` is a prefix of `s`, the remainder of `s` after `p`; otherwise
`none`. -/
def dropStart : Str → Str → Option Str
  | [], s => some s
  | _ :: _, [] => none
  | a :: as, b :: bs => if a = b then dropStart as bs else none

/-- Try to match `<p>-[0-9]+: ` at the start of `s`, returning the capture
group `<p>-<digits>` on success. -/
def tryProject (p : Str) (s : Str) : Option Str :=
  match dropStart (p ++ ['-']) s with
  | none => none
  | some rest =>
    let ds := rest.takeWhile Char.isDigit
    let rest2 := rest.dropWhile Char.isDigit
    if ds = [] then none
    else if (str ": ").isPrefixOf rest2 then some (p ++ ['-'] ++ ds)
    else none

/-- Try each configured project alternative, in order, at the start of `s`
(the priority order of the alternation in the compiled pattern). -/
def matchKeyHere (projects : List Str) (s : Str) : Option Str :=
  match projects with
  | [] => none
  | p :: ps =>
    match tryProject p s with
    | some k => some k
    | none => matchKeyHere ps s

/-- `keyRegexp.FindStringSubmatch` restricted to capture group 1 (part_000
lines 167-178, 210): leftmost occurrence of `(<prefix>-[0-9]+): ` anywhere in
the title, returning the captured key. -/
def keyRegexpFind (projects : List Str) : Str → Option Str
  | [] => matchKeyHere projects []
  | c :: t =>
    match matchKeyHere projects (c :: t) with
    | some k => some k
    | none => keyRegexpFind projects t

/-- Try to match `Bug [0-9]+: ` at the start of `s`. -/
def matchBugHere (s : Str) : Bool :=
  match dropStart (str "Bug ") s with
  | none => false
  | some rest =>
    let ds := rest.takeWhile Char.isDigit
    let rest2 := rest.dropWhile Char.isDigit
    ds ≠ [] && (str ": ").isPrefixOf rest2

/-- `bugRegexp.MatchString` (part_000 lines 180-183, 215): does
`Bug [0-9]+: ` occur anywhere in the title? -/
def bugRegexpMatch : Str → Bool
  | [] => matchBugHere []
  | c :: t => matchBugHere (c :: t) || bugRegexpMatch t

/-- `strings.Contains` (part_000 lines 102, 213). -/
def containsSub (sub : Str) : Str → Bool
  | [] => sub.isPrefixOf []
  | c :: t => sub.isPrefixOf (c :: t) || containsSub sub t

/-! ## Diagnostics

The advisory log lines of the program (klog.V(1) Infof / klog.Warningf),
abstracted as a datatype. -/

/-- One advisory diagnostic emitted by the program. -/
inductive Diag where
  /-- "The pull request ... is open and it's not on hold. ..." (line 99). -/
  | holdAdvisory (url : Str)
  /-- "%s: got %s, want %s" (lines 104, 108, 113). -/
  | statusMismatch (key got want : Str)
  /-- "%s: unexpected state %q" (line 116). -/
  | unexpectedState (url state : Str)
  /-- "The pull request %s is not assigned to a bug nor a story: %s" (line 216). -/
  | unassigned (url title : Str)
  /-- "Awaiting review (bugfix): %s: %s" (line 218). -/
  | awaitingBugfix (url title : Str)
  /-- "Awaiting review (feature): %s: %s" (line 221). -/
  | awaitingFeature (url title : Str)
deriving DecidableEq, Repr

/-- Is a diagnostic a status-table mismatch? -/
def isMismatch : Diag → Bool
  | .statusMismatch _ _ _ => true
  | _ => false

/-- Number of status-table mismatch diagnostics in a list. -/
def mismatchCount (ds : List Diag) : Nat := (ds.filter isMismatch).length

/-- Is a diagnostic the hold advisory? -/
def isHoldAdvisory : Diag → Bool
  | .holdAdvisory _ => true
  | _ => false

/-- Does a diagnostic list carry the hold advisory? -/
def hasHoldAdvisory (ds : List Diag) : Bool := ds.any isHoldAdvisory

/-! ## linkPullRequestToIssue (part_000 lines 80-155) -/

/-- Title stripping (part_000 lines 83-86): remove a leading
`<issueKey>: ` marker if present, otherwise keep the title unchanged. -/
def residualTitle (issueKey : Str) (title : Str) : Str :=
  if (issueKey ++ str ": ").isPrefixOf title then
    title.drop (issueKey ++ str ": ").length
  else title

/-- The status-consistency and hold-advisory diagnostics (part_000 lines
93-117): the switch on the pull-request state. `status` is
`issue.Fields.Status.Name`. -/
def statusCheckDiags (pr : PullRequest) (issueKey : Str) (status : Str) : List Diag :=
  let title := residualTitle issueKey pr.title
  if pr.state = str "open" then
    (if contains (pullRequestLabels pr) (str "do-not-merge/hold") then []
     else [.holdAdvisory (pullRequestLink pr)]) ++
    (if containsSub (str "WIP") title then
      (if status ≠ str "In Progress" then
        [.statusMismatch issueKey status (str "In Progress")]
       else [])
     else
      (if status ≠ str "Code Review" then
        [.statusMismatch issueKey status (str "Code Review")]
       else []))
  else if pr.state = str "closed" then
    (if pr.merged ∧ status ≠ str "On QA" ∧ status ≠ str "Done" then
      [.statusMismatch issueKey status (str "On QA or Done")]
     else [])
  else
    [.unexpectedState (pullRequestLink pr) pr.state]

/-- Scan of the fetched remote links (part_000 lines 127-132): is some link's
object URL equal to `url`? -/
def hasLinkTo : List RemoteLink → Str → Bool
  | [], _ => false
  | l :: ls, url => if l.object.url = url then true else hasLinkTo ls url

/-- The remote link the program constructs (part_000 lines 124-125, 136-145)
for a pull request, given the already-stripped title. -/
def newRemoteLink (pr : PullRequest) (title : Str) : RemoteLink :=
  { object :=
    { url := pullRequestLink pr
      title := pullRequestLinkTitle pr ++ str ": " ++ title
      icon :=
      { url16x16 := str "https://github.com/favicon.ico"
        title := str "GitHub" } } }

/-- The create-or-skip decision of the link reconciler (part_000 lines
124-147): `none` when some fetched link already has the canonical URL,
otherwise the link submitted for creation. -/
def linkDecision (pr : PullRequest) (issueKey : Str) (links : List RemoteLink) :
    Option RemoteLink :=
  if hasLinkTo links (pullRequestLink pr) then none
  else some (newRemoteLink pr (residualTitle issueKey pr.title))

/-- The effect of one reconciler invocation on the issue's remote-link set:
unchanged on skip, extended by the submitted link on create. -/
def reconcileLinks (pr : PullRequest) (issueKey : Str) (links : List RemoteLink) :
    List RemoteLink :=
  match linkDecision pr issueKey links with
  | none => links
  | some l => links ++ [l]

/-! ## Fallible remote calls

The jira client is modelled as a record of fallible operations; `klog.Fatal`
on a failed call is modelled as propagating the error (the whole run aborts). -/

/-- Error values of the remote systems. -/
abbrev Err := Str

/-- The jira operations the program invokes, each fallible. -/
structure JiraEnv where
  /-- `jiraClient.Issue.Get key` projected to `issue.Fields.Status.Name`. -/
  getIssueStatus : Str → Except Err Str
  /-- `jiraClient.Issue.GetRemoteLinks key`. -/
  getRemoteLinks : Str → Except Err (List RemoteLink)
  /-- The POST of a new remote link (part_000 lines 147-154). -/
  createRemoteLink : Str → RemoteLink → Except Err Unit

/-- `linkPullRequestToIssue` (part_000 lines 80-155): fetch the issue, emit
status and hold diagnostics, fetch the remote links, and create the link when
no existing link has the canonical URL. A failed remote call is fatal
(`klog.Fatal`), modelled as `Except.error`. On success, returns the emitted
diagnostics and the created link, if any. -/
def linkPullRequestToIssue (env : JiraEnv) (pr : PullRequest) (issueKey : Str) :
    Except Err (List Diag × Option RemoteLink) :=
  match env.getIssueStatus issueKey with
  | .error e => .error e
  | .ok status =>
    let diags := statusCheckDiags pr issueKey status
    match env.getRemoteLinks issueKey with
    | .error e => .error e
    | .ok links =>
      match linkDecision pr issueKey links with
      | none => .ok (diags, none)
      | some l =>
        match env.createRemoteLink issueKey l with
        | .error e => .error e
        | .ok _ => .ok (diags, some l)

/-! ## The per-pull-request body of main (part_000 lines 209-231) -/

/-- The attention-classifier diagnostics (part_000 lines 212-224), given the
result `keyMatch` of the key regexp on the raw title. -/
def classifierDiags (pr : PullRequest) (keyMatch : Option Str) : List Diag :=
  if pr.state = str "open" ∧
      (contains team pr.userLogin ∨ contains teamRepos pr.baseRepoFullName) then
    if containsSub (str "WIP") pr.title then []
    else
      match keyMatch with
      | none =>
        if bugRegexpMatch pr.title then [.awaitingBugfix (pullRequestLink pr) pr.title]
        else [.unassigned (pullRequestLink pr) pr.title]
      | some _ => [.awaitingFeature (pullRequestLink pr) pr.title]
  else []

/-- One iteration of the inner loop of `main` (part_000 lines 209-231): run
the key regexp, emit the classifier diagnostics, and when a key matched,
invoke `linkPullRequestToIssue`. Returns the diagnostics, the created remote
link if any, and whether `linkPullRequestToIssue` was invoked. -/
def processPR (env : JiraEnv) (pr : PullRequest) :
    Except Err (List Diag × Option RemoteLink × Bool) :=
  let m := keyRegexpFind jiraProjects pr.title
  let cds := classifierDiags pr m
  match m with
  | none => .ok (cds, none, false)
  | some issueKey =>
    match linkPullRequestToIssue env pr issueKey with
    | .error e => .error e
    | .ok (ds, created) => .ok (cds ++ ds, created, true)

/-- The traversal of the pull requests of one repository (part_000 lines
209-231): sequential, aborting on the first fatal error. -/
def processPRs (env : JiraEnv) : List PullRequest → Except Err (List Diag)
  | [] => .ok []
  | pr :: rest =>
    match processPR env pr with
    | .error e => .error e
    | .ok (ds, _, _) =>
      match processPRs env rest with
      | .error e => .error e
      | .ok ds2 => .ok (ds ++ ds2)

/-- One repository of the outer loop of `main` (part_000 lines 194-231):
listing the pull requests is fallible and a failure is fatal
(`klog.Fatal` at line 206). -/
def processRepo (env : JiraEnv) (listRes : Except Err (List PullRequest)) :
    Except Err (List Diag) :=
  match listRes with
  | .error e => .error e
  | .ok prs => processPRs env prs

/-! ## The link reconciler of src/main.go (lines 50-95)

Translated separately from src/main.go, whose `linkPullRequestToIssue` does
not fetch the issue and emits no status or hold diagnostics; its
title-stripping, link scan and link construction are compared with the
part_000 version in claim C10. -/

namespace MainGo

/-- Title stripping of src/main.go (lines 53-56). -/
def residualTitle (issueKey : Str) (title : Str) : Str :=
  if (issueKey ++ str ": ").isPrefixOf title then
    title.drop (issueKey ++ str ": ").length
  else title

/-- The remote link constructed by src/main.go (lines 64-65, 76-85). -/
def newRemoteLink (pr : PullRequest) (title : Str) : RemoteLink :=
  { object :=
    { url := pullRequestLink pr
      title := pullRequestLinkTitle pr ++ str ": " ++ title
      icon :=
      { url16x16 := str "https://github.com/favicon.ico"
        title := str "GitHub" } } }

/-- The create-or-skip decision of src/main.go's `linkPullRequestToIssue`
(lines 53-87): skip when some fetched link already has the canonical URL,
otherwise submit the constructed link. -/
def linkDecision (pr : PullRequest) (issueKey : Str) (links : List RemoteLink) :
    Option RemoteLink :=
  if hasLinkTo links (pullRequestLink pr) then none
  else some (MainGo.newRemoteLink pr (MainGo.residualTitle issueKey pr.title))

end MainGo

/-! ## Helper lemmas -/

theorem dropStart_append (p s : Str) : dropStart p (p ++ s) = some s := by
  induction p with
  | nil => rfl
  | cons a as ih => simp [dropStart, ih]

theorem span_digits_append (ds : Str) (c : Char) (t : Str)
    (hds : ∀ x ∈ ds, x.isDigit = true) (hc : c.isDigit = false) :
    (ds ++ c :: t).takeWhile Char.isDigit = ds ∧
      (ds ++ c :: t).dropWhile Char.isDigit = c :: t := by
  induction ds with
  | nil => simp [List.takeWhile_cons, List.dropWhile_cons, hc]
  | cons d rest ih =>
    have hd : d.isDigit = true := hds d (List.mem_cons_self d rest)
    have ihx := ih fun x hx => hds x (List.mem_cons_of_mem d hx)
    simp [List.takeWhile_cons, List.dropWhile_cons, hd, ihx.1, ihx.2]

theorem isPrefixOf_append_self (l r : Str) : l.isPrefixOf (l ++ r) = true := by
  rw [List.isPrefixOf_iff_prefix]
  exact List.prefix_append l r

theorem append_drop_of_isPrefixOf (p t : Str) (h : p.isPrefixOf t = true) :
    p ++ t.drop p.length = t := by
  rw [List.isPrefixOf_iff_prefix] at h
  obtain ⟨r, hr⟩ := h
  subst hr
  rw [List.drop_left]

theorem contains_iff_mem (ls : List Str) (n : Str) : contains ls n = true ↔ n ∈ ls := by
  induction ls with
  | nil => simp [contains]
  | cons l rest ih =>
    by_cases h : l = n
    · simp [contains, h]
    · have h2 : ¬n = l := fun hn => h hn.symm
      simp [contains, h, h2, ih]

theorem hasLinkTo_iff (links : List RemoteLink) (url : Str) :
    hasLinkTo links url = true ↔ ∃ l ∈ links, l.object.url = url := by
  induction links with
  | nil => simp [hasLinkTo]
  | cons l ls ih =>
    by_cases h : l.object.url = url
    · simp [hasLinkTo, h]
    · simp [hasLinkTo, h, ih]

theorem mismatchCount_append (a b : List Diag) :
    mismatchCount (a ++ b) = mismatchCount a + mismatchCount b := by
  simp [mismatchCount, List.filter_append]

/-! ## C1: the key extractor -/

/-- C1 counterexample: the claim states that matching is anchored at the start
of the title, so that a title where the key marker occurs only in the middle
returns no key. On the concrete title "see IR-12: x", whose start is not a
key marker, the extractor nevertheless returns the key "IR-12": the compiled
pattern carries no anchor and `FindStringSubmatch` scans the whole title. -/
theorem c1_keyExtractor_counterexample :
    (str "IR-").isPrefixOf (str "see IR-12: x") = false ∧
    keyRegexpFind jiraProjects (str "see IR-12: x") = some (str "IR-12") := by
  exact ⟨by decide, by decide⟩

/-- C1, amended: for every title of the form `IR-<digits>: rest` (prefix in
the configured set), the extractor returns exactly the key `IR-<digits>` and
the residual title is `rest`; however, matching is NOT anchored: the leftmost
occurrence of the marker anywhere in the title is used, and the residual
stripping applies only when the marker is a literal prefix of the title. -/
theorem c1_keyExtractor_amended (ds rest : Str) (hne : ds ≠ [])
    (hds : ∀ x ∈ ds, x.isDigit = true) :
    keyRegexpFind jiraProjects (str "IR-" ++ ds ++ str ": " ++ rest) =
        some (str "IR-" ++ ds) ∧
    residualTitle (str "IR-" ++ ds) (str "IR-" ++ ds ++ str ": " ++ rest) = rest := by
  have hspan := span_digits_append ds ':' (' ' :: rest) hds (by decide)
  have htry : tryProject (str "IR") (str "IR-" ++ ds ++ str ": " ++ rest) =
      some (str "IR-" ++ ds) := by
    have hdrop : dropStart (str "IR" ++ ['-']) (str "IR-" ++ ds ++ str ": " ++ rest) =
        some (ds ++ ':' :: ' ' :: rest) := by
      have := dropStart_append (str "IR" ++ ['-']) (ds ++ ':' :: ' ' :: rest)
      simpa [str] using this
    simp only [tryProject, hdrop]
    simp [hspan.1, hspan.2, hne, str, List.isPrefixOf]
  constructor
  · have hmk : matchKeyHere jiraProjects (str "IR-" ++ ds ++ str ": " ++ rest) =
        some (str "IR-" ++ ds) := by
      show matchKeyHere [str "IR"] (str "IR-" ++ ds ++ str ": " ++ rest) = _
      unfold matchKeyHere
      rw [htry]
    rw [show str "IR-" ++ ds ++ str ": " ++ rest =
        'I' :: 'R' :: '-' :: (ds ++ str ": " ++ rest) by simp [str]] at hmk ⊢
    rw [keyRegexpFind, hmk]
  · have hpre : ((str "IR-" ++ ds) ++ str ": ").isPrefixOf
        (str "IR-" ++ ds ++ str ": " ++ rest) = true := by
      have h := isPrefixOf_append_self ((str "IR-" ++ ds) ++ str ": ") rest
      rw [List.append_assoc] at h
      exact h
    rw [residualTitle, if_pos hpre]
    have h := List.drop_left ((str "IR-" ++ ds) ++ str ": ") rest
    rw [List.append_assoc] at h
    exact h

/-- C1 witness: the amended theorem evaluated on the spec's own example title
"IR-123: Fix registry pruning". -/
theorem c1_keyExtractor_witness :
    keyRegexpFind jiraProjects
        (str "IR-" ++ str "123" ++ str ": " ++ str "Fix registry pruning") =
      some (str "IR-" ++ str "123") ∧
    residualTitle (str "IR-" ++ str "123")
        (str "IR-" ++ str "123" ++ str ": " ++ str "Fix registry pruning") =
      str "Fix registry pruning" :=
  c1_keyExtractor_amended (str "123") (str "Fix registry pruning")
    (by decide) (by decide)

/-! ## Concrete fixtures used by witnesses and counterexamples -/

/-- The spec's running example pull request: repo openshift/image-registry,
number 42, title "IR-123: Fix registry pruning", open, by a team member. -/
def pr0 : PullRequest :=
  { title := str "IR-123: Fix registry pruning"
    state := str "open"
    merged := false
    number := 42
    baseRepoFullName := str "openshift/image-registry"
    userLogin := str "dmage"
    labels := [] }

/-- An open pull request by a team member whose title carries neither a
tracked key nor a bug marker. -/
def prPlain : PullRequest :=
  { title := str "fix stuff"
    state := str "open"
    merged := false
    number := 7
    baseRepoFullName := str "openshift/api"
    userLogin := str "dmage"
    labels := [] }

/-- The spec's bug-marker example: open pull request titled
"Bug 9001: fix crash". -/
def prBug : PullRequest :=
  { title := str "Bug 9001: fix crash"
    state := str "open"
    merged := false
    number := 5
    baseRepoFullName := str "openshift/image-registry"
    userLogin := str "dmage"
    labels := [] }

/-- An open pull request carrying a label named merely "hold". -/
def prHold : PullRequest :=
  { title := str "IR-1: x"
    state := str "open"
    merged := false
    number := 9
    baseRepoFullName := str "openshift/image-registry"
    userLogin := str "dmage"
    labels := [{ name := str "hold" }] }

/-- A jira environment in which every remote call succeeds. -/
def okEnv : JiraEnv :=
  { getIssueStatus := fun _ => .ok (str "Done")
    getRemoteLinks := fun _ => .ok []
    createRemoteLink := fun _ _ => .ok () }

/-- A jira environment in which every remote call fails. -/
def errEnv : JiraEnv :=
  { getIssueStatus := fun _ => .error (str "boom")
    getRemoteLinks := fun _ => .error (str "boom")
    createRemoteLink := fun _ _ => .error (str "boom") }

/-! ## C2: idempotence of the link reconciler -/

/-- C2: the link reconciler is idempotent. If some fetched remote link already
carries the canonical pull-request URL, the invocation changes nothing (and
issues no creation); and a second invocation on the link set produced by a
first one is always a no-op, so two runs in sequence create at most one
remote link. -/
theorem c2_linkReconciler_idempotent (pr : PullRequest) (issueKey : Str)
    (links : List RemoteLink) :
    ((∃ l ∈ links, l.object.url = pullRequestLink pr) →
      linkDecision pr issueKey links = none ∧
        reconcileLinks pr issueKey links = links) ∧
    reconcileLinks pr issueKey (reconcileLinks pr issueKey links) =
      reconcileLinks pr issueKey links := by
  constructor
  · intro h
    have hh : hasLinkTo links (pullRequestLink pr) = true := (hasLinkTo_iff _ _).2 h
    constructor
    · simp [linkDecision, hh]
    · simp [reconcileLinks, linkDecision, hh]
  · by_cases hh : hasLinkTo links (pullRequestLink pr) = true
    · simp [reconcileLinks, linkDecision, hh]
    · have h1 : reconcileLinks pr issueKey links =
          links ++ [newRemoteLink pr (residualTitle issueKey pr.title)] := by
        simp [reconcileLinks, linkDecision, hh]
      have h2 : hasLinkTo (links ++ [newRemoteLink pr (residualTitle issueKey pr.title)])
          (pullRequestLink pr) = true := by
        apply (hasLinkTo_iff _ _).2
        exact ⟨newRemoteLink pr (residualTitle issueKey pr.title), by simp, rfl⟩
      rw [h1]
      simp [reconcileLinks, linkDecision, h2]

/-- C2 witness: on the concrete pull request pr0 whose link is already
present, the reconciler skips, and repeating it from the empty link set is a
no-op the second time. -/
theorem c2_linkReconciler_witness :
    (linkDecision pr0 (str "IR-123")
        [newRemoteLink pr0 (str "Fix registry pruning")] = none ∧
      reconcileLinks pr0 (str "IR-123")
          [newRemoteLink pr0 (str "Fix registry pruning")] =
        [newRemoteLink pr0 (str "Fix registry pruning")]) ∧
    reconcileLinks pr0 (str "IR-123") (reconcileLinks pr0 (str "IR-123") []) =
      reconcileLinks pr0 (str "IR-123") [] :=
  ⟨(c2_linkReconciler_idempotent pr0 (str "IR-123")
      [newRemoteLink pr0 (str "Fix registry pruning")]).1
      ⟨newRemoteLink pr0 (str "Fix registry pruning"), by simp, rfl⟩,
    (c2_linkReconciler_idempotent pr0 (str "IR-123") []).2⟩

/-! ## C3: the status-consistency state table -/

/-- C3: the mismatch diagnostics of the status checker follow the state table
exactly: an open pull request with "WIP" in the (stripped) title mismatches
iff the status is not "In Progress"; an open one without "WIP" mismatches iff
the status is not "Code Review"; a closed, merged one mismatches iff the
status is neither "On QA" nor "Done"; a closed, unmerged one never
mismatches; and at most one mismatch diagnostic is emitted per invocation. -/
theorem c3_statusChecker_table (pr : PullRequest) (issueKey status : Str) :
    (pr.state = str "open" →
        containsSub (str "WIP") (residualTitle issueKey pr.title) = true →
        mismatchCount (statusCheckDiags pr issueKey status) =
          if status = str "In Progress" then 0 else 1) ∧
    (pr.state = str "open" →
        containsSub (str "WIP") (residualTitle issueKey pr.title) = false →
        mismatchCount (statusCheckDiags pr issueKey status) =
          if status = str "Code Review" then 0 else 1) ∧
    (pr.state = str "closed" → pr.merged = true →
        mismatchCount (statusCheckDiags pr issueKey status) =
          if status = str "On QA" ∨ status = str "Done" then 0 else 1) ∧
    (pr.state = str "closed" → pr.merged = false →
        mismatchCount (statusCheckDiags pr issueKey status) = 0) ∧
    mismatchCount (statusCheckDiags pr issueKey status) ≤ 1 := by
  refine ⟨?_, ?_, ?_, ?_, ?_⟩
  · intro ho hw
    simp only [statusCheckDiags, ho, hw]
    simp only [mismatchCount, List.filter_append]
    split_ifs <;> simp_all [isMismatch]
  · intro ho hw
    simp only [statusCheckDiags, ho, hw]
    simp only [mismatchCount, List.filter_append]
    split_ifs <;> simp_all [isMismatch]
  · intro hc hm
    have hno : pr.state = str "open" ↔ False := by
      rw [hc]; simp [str]
    simp only [statusCheckDiags, hc, hm, hno]
    simp only [mismatchCount]
    split_ifs <;> simp_all [isMismatch]
  · intro hc hm
    simp only [statusCheckDiags, hc, hm]
    simp only [mismatchCount]
    split_ifs <;> simp_all [isMismatch, str]
  · by_cases ho : pr.state = str "open"
    · simp only [statusCheckDiags, ho]
      simp only [mismatchCount, List.filter_append]
      split_ifs <;> simp [isMismatch]
    · by_cases hc : pr.state = str "closed"
      · have hno : pr.state = str "open" ↔ False := by
          rw [hc]; simp [str]
        simp only [statusCheckDiags, hno, hc]
        simp only [mismatchCount]
        split_ifs <;> simp [isMismatch]
      · simp only [statusCheckDiags, ho, hc]
        simp [mismatchCount, isMismatch]

/-- C3 witness: on the concrete open pull request pr0 (no "WIP"), issue
status "Code Review" yields zero mismatch diagnostics. -/
theorem c3_statusChecker_witness :
    mismatchCount (statusCheckDiags pr0 (str "IR-123") (str "Code Review")) = 0 :=
  ((c3_statusChecker_table pr0 (str "IR-123") (str "Code Review")).2.1
      rfl (by decide)).trans (by decide)

/-! ## C4: the hold-label advisory -/

/-- C4 counterexample: the claim states the advisory fires for every open pull
request without the hold label, regardless of whether a key was extracted.
On the concrete open, hold-label-free pull request prPlain, whose title
yields no key, the run emits only the classifier's "unassigned" diagnostic:
`linkPullRequestToIssue` — the only place the advisory is emitted — is never
invoked (third component `false`), so no hold advisory appears. -/
theorem c4_holdAdvisory_counterexample :
    prPlain.state = str "open" ∧
    contains (pullRequestLabels prPlain) (str "do-not-merge/hold") = false ∧
    keyRegexpFind jiraProjects prPlain.title = none ∧
    processPR okEnv prPlain =
      .ok ([.unassigned (pullRequestLink prPlain) prPlain.title], none, false) ∧
    hasHoldAdvisory [.unassigned (pullRequestLink prPlain) prPlain.title] = false := by
  refine ⟨rfl, rfl, by decide, rfl, rfl⟩

/-- C4, amended: the advisory fires only when the status checker runs, i.e.
for pull requests whose title yielded an issue key. For every such open pull
request lacking the label "do-not-merge/hold", the advisory is emitted,
independently of the issue status and of the status-expectation table. -/
theorem c4_holdAdvisory_amended (pr : PullRequest) (issueKey status : Str)
    (hopen : pr.state = str "open")
    (hhold : contains (pullRequestLabels pr) (str "do-not-merge/hold") = false) :
    hasHoldAdvisory (statusCheckDiags pr issueKey status) = true := by
  simp only [statusCheckDiags, hopen, hhold]
  simp [hasHoldAdvisory, isHoldAdvisory]

/-- C4 witness: the amended theorem evaluated on the concrete open,
hold-label-free pull request pr0 with issue status "Done". -/
theorem c4_holdAdvisory_witness :
    hasHoldAdvisory (statusCheckDiags pr0 (str "IR-123") (str "Done")) = true :=
  c4_holdAdvisory_amended pr0 (str "IR-123") (str "Done") rfl rfl

/-! ## C5: the attention classifier -/

/-- C5: for every open pull request whose author is in the team roster or
whose repository is tracked, and whose raw title does not contain "WIP", the
classifier emits exactly one diagnostic — "unassigned" when neither a key nor
the bug marker matches, "awaiting review (bugfix)" when only the bug marker
matches, "awaiting review (feature)" when a key matches; closed, WIP-titled
or untracked pull requests receive no classifier diagnostic. -/
theorem c5_attentionClassifier (pr : PullRequest) :
    ((pr.state = str "open" ∧
        (contains team pr.userLogin = true ∨
          contains teamRepos pr.baseRepoFullName = true) ∧
        containsSub (str "WIP") pr.title = false) →
      (keyRegexpFind jiraProjects pr.title = none →
          bugRegexpMatch pr.title = false →
          classifierDiags pr (keyRegexpFind jiraProjects pr.title) =
            [.unassigned (pullRequestLink pr) pr.title]) ∧
      (keyRegexpFind jiraProjects pr.title = none →
          bugRegexpMatch pr.title = true →
          classifierDiags pr (keyRegexpFind jiraProjects pr.title) =
            [.awaitingBugfix (pullRequestLink pr) pr.title]) ∧
      (∀ k, keyRegexpFind jiraProjects pr.title = some k →
          classifierDiags pr (keyRegexpFind jiraProjects pr.title) =
            [.awaitingFeature (pullRequestLink pr) pr.title]) ∧
      (classifierDiags pr (keyRegexpFind jiraProjects pr.title)).length = 1) ∧
    ((pr.state ≠ str "open" ∨
        (contains team pr.userLogin = false ∧
          contains teamRepos pr.baseRepoFullName = false) ∨
        containsSub (str "WIP") pr.title = true) →
      classifierDiags pr (keyRegexpFind jiraProjects pr.title) = []) := by
  constructor
  · rintro ⟨ho, htr, hw⟩
    have hgate : pr.state = str "open" ∧
        (contains team pr.userLogin ∨ contains teamRepos pr.baseRepoFullName) := by
      refine ⟨ho, ?_⟩
      rcases htr with h | h
      · exact Or.inl h
      · exact Or.inr h
    refine ⟨?_, ?_, ?_, ?_⟩
    · intro hk hb
      simp [classifierDiags, hgate, hw, hk, hb]
    · intro hk hb
      simp [classifierDiags, hgate, hw, hk, hb]
    · intro k hk
      simp [classifierDiags, hgate, hw, hk]
    · cases hk : keyRegexpFind jiraProjects pr.title with
      | none =>
        cases hb : bugRegexpMatch pr.title with
        | false => simp [classifierDiags, hgate, hw, hk, hb]
        | true => simp [classifierDiags, hgate, hw, hk, hb]
      | some k => simp [classifierDiags, hgate, hw, hk]
  · intro h
    rcases h with h | ⟨h1, h2⟩ | h
    · have : ¬(pr.state = str "open" ∧
          (contains team pr.userLogin ∨ contains teamRepos pr.baseRepoFullName)) :=
        fun hc => h hc.1
      simp [classifierDiags, this]
    · have : ¬(pr.state = str "open" ∧
          (contains team pr.userLogin ∨ contains teamRepos pr.baseRepoFullName)) := by
        rintro ⟨-, hc | hc⟩
        · rw [h1] at hc; exact Bool.false_ne_true hc
        · rw [h2] at hc; exact Bool.false_ne_true hc
      simp [classifierDiags, this]
    · by_cases hgate : pr.state = str "open" ∧
          (contains team pr.userLogin ∨ contains teamRepos pr.baseRepoFullName)
      · simp [classifierDiags, hgate, h]
      · simp [classifierDiags, hgate]

/-- C5 witness: on the concrete tracked, open, non-WIP pull request pr0 with
key IR-123 in the title, the classifier emits exactly the
"awaiting review (feature)" diagnostic. -/
theorem c5_attentionClassifier_witness :
    classifierDiags pr0 (keyRegexpFind jiraProjects pr0.title) =
      [.awaitingFeature (pullRequestLink pr0) pr0.title] :=
  ((c5_attentionClassifier pr0).1 ⟨rfl, Or.inl rfl, by decide⟩).2.2.1
    (str "IR-123") (by decide)

/-! ## C6: the created remote link -/

/-- C6: every link the reconciler creates has URL
"https://github.com/(owner)/(repo)/pull/(number)", title
"(owner)/(repo)#(number): (residual-title)" and the fixed GitHub favicon
icon, where the residual title strips the leading "(key): " marker when
present and is the unmodified title otherwise; and every link the decision
submits is exactly this link. -/
theorem c6_createdLink_shape (pr : PullRequest) (issueKey : Str) :
    (newRemoteLink pr (residualTitle issueKey pr.title)).object.url =
      str "https://github.com/" ++ pr.baseRepoFullName ++ str "/pull/" ++
        natStr pr.number ∧
    (newRemoteLink pr (residualTitle issueKey pr.title)).object.title =
      pr.baseRepoFullName ++ str "#" ++ natStr pr.number ++ str ": " ++
        residualTitle issueKey pr.title ∧
    (newRemoteLink pr (residualTitle issueKey pr.title)).object.icon =
      { url16x16 := str "https://github.com/favicon.ico", title := str "GitHub" } ∧
    ((issueKey ++ str ": ").isPrefixOf pr.title = true →
      issueKey ++ str ": " ++ residualTitle issueKey pr.title = pr.title) ∧
    ((issueKey ++ str ": ").isPrefixOf pr.title = false →
      residualTitle issueKey pr.title = pr.title) ∧
    (∀ links l, linkDecision pr issueKey links = some l →
      l = newRemoteLink pr (residualTitle issueKey pr.title)) := by
  refine ⟨rfl, ?_, rfl, ?_, ?_, ?_⟩
  · show pullRequestLinkTitle pr ++ str ": " ++ residualTitle issueKey pr.title = _
    simp [pullRequestLinkTitle, List.append_assoc]
  · intro h
    have h2 := append_drop_of_isPrefixOf (issueKey ++ str ": ") pr.title h
    rw [residualTitle, if_pos h]
    exact h2
  · intro h
    rw [residualTitle, if_neg (by simp [h])]
  · intro links l hdec
    rw [linkDecision] at hdec
    by_cases hh : hasLinkTo links (pullRequestLink pr) = true
    · rw [if_pos hh] at hdec
      exact absurd hdec (by simp)
    · rw [if_neg hh] at hdec
      exact (Option.some_injective _ hdec).symm

/-- C6 witness: on the spec's example (repo openshift/image-registry, number
42, title "IR-123: Fix registry pruning", key IR-123) the created link's
title is "openshift/image-registry#42: Fix registry pruning". -/
theorem c6_createdLink_witness :
    (newRemoteLink pr0 (residualTitle (str "IR-123") pr0.title)).object.title =
      str "openshift/image-registry#42: Fix registry pruning" :=
  ((c6_createdLink_shape pr0 (str "IR-123")).2.1).trans (by decide)

/-! ## C7: error handling -/

/-- C7: every failed remote read (issue fetch, remote-link fetch, pull-request
listing) and every failed remote write (link creation) is fatal and aborts
the run immediately with the error, while consistency mismatches are mere
diagnostics: when all remote calls succeed the run always proceeds normally,
whatever the issue status, and the traversal aborts at the first failing
pull request. -/
theorem c7_errorHandling (env : JiraEnv) (pr : PullRequest) (issueKey : Str)
    (e : Err) :
    (env.getIssueStatus issueKey = .error e →
      linkPullRequestToIssue env pr issueKey = .error e) ∧
    (∀ status, env.getIssueStatus issueKey = .ok status →
      env.getRemoteLinks issueKey = .error e →
      linkPullRequestToIssue env pr issueKey = .error e) ∧
    (∀ status links l, env.getIssueStatus issueKey = .ok status →
      env.getRemoteLinks issueKey = .ok links →
      linkDecision pr issueKey links = some l →
      env.createRemoteLink issueKey l = .error e →
      linkPullRequestToIssue env pr issueKey = .error e) ∧
    (processRepo env (.error e) = .error e) ∧
    (∀ rest, processPR env pr = .error e →
      processPRs env (pr :: rest) = .error e) ∧
    (∀ status links, env.getIssueStatus issueKey = .ok status →
      env.getRemoteLinks issueKey = .ok links →
      (∀ l, env.createRemoteLink issueKey l = .ok ()) →
      linkPullRequestToIssue env pr issueKey =
        .ok (statusCheckDiags pr issueKey status, linkDecision pr issueKey links)) := by
  refine ⟨?_, ?_, ?_, rfl, ?_, ?_⟩
  · intro h
    simp [linkPullRequestToIssue, h]
  · intro status h1 h2
    simp [linkPullRequestToIssue, h1, h2]
  · intro status links l h1 h2 h3 h4
    simp [linkPullRequestToIssue, h1, h2, h3, h4]
  · intro rest h
    simp [processPRs, h]
  · intro status links h1 h2 h3
    simp only [linkPullRequestToIssue, h1, h2]
    cases hdec : linkDecision pr issueKey links with
    | none => rfl
    | some l => simp [h3 l]

/-- C7 witness: with the all-failing environment, linking pr0 aborts with the
error, and a repository whose listing fails aborts with the listing error. -/
theorem c7_errorHandling_witness :
    linkPullRequestToIssue errEnv pr0 (str "IR-123") = .error (str "boom") ∧
    processRepo errEnv (.error (str "down")) = .error (str "down") :=
  ⟨(c7_errorHandling errEnv pr0 (str "IR-123") (str "boom")).1 rfl,
    (c7_errorHandling errEnv pr0 (str "IR-123") (str "down")).2.2.2.1⟩

/-! ## C8: no key, no reconciler -/

/-- C8: when the key regexp finds no tracked key in the title, the run skips
the pull request after the classifier: `linkPullRequestToIssue` (status
checker and link reconciler) is never invoked and no link is created — even
when the bug marker "Bug (number): " matches the title, which is consulted
only by the classifier. -/
theorem c8_noKey_noReconciler (env : JiraEnv) (pr : PullRequest)
    (h : keyRegexpFind jiraProjects pr.title = none) :
    processPR env pr = .ok (classifierDiags pr none, none, false) := by
  simp [processPR, h]

/-- C8 witness: the spec's example "Bug 9001: fix crash": the bug marker
matches, the classifier emits "awaiting review (bugfix)", yet the reconciler
is never invoked and no link is created. -/
theorem c8_noKey_noReconciler_witness :
    bugRegexpMatch prBug.title = true ∧
    classifierDiags prBug none = [.awaitingBugfix (pullRequestLink prBug) prBug.title] ∧
    processPR okEnv prBug = .ok (classifierDiags prBug none, none, false) :=
  ⟨by decide, by decide, c8_noKey_noReconciler okEnv prBug (by decide)⟩

/-! ## C9: exactness of the hold-label check -/

/-- C9: the hold advisory is suppressed exactly when some label of the pull
request is the exact string "do-not-merge/hold": for an open pull request the
advisory is present iff no label equals that string, and the label scan is
exact-equality membership over the full label set, so a label named merely
"hold" (or any other name) does not suppress it. -/
theorem c9_holdLabel_exact (pr : PullRequest) (issueKey status : Str)
    (hopen : pr.state = str "open") :
    (hasHoldAdvisory (statusCheckDiags pr issueKey status) =
      !contains (pullRequestLabels pr) (str "do-not-merge/hold")) ∧
    (contains (pullRequestLabels pr) (str "do-not-merge/hold") = true ↔
      str "do-not-merge/hold" ∈ pullRequestLabels pr) := by
  constructor
  · simp only [statusCheckDiags, hopen]
    cases hc : contains (pullRequestLabels pr) (str "do-not-merge/hold") with
    | true =>
      simp only [hc, if_pos rfl, if_true]
      split_ifs <;> simp_all [hasHoldAdvisory, isHoldAdvisory]
    | false =>
      split_ifs <;> simp_all [hasHoldAdvisory, isHoldAdvisory]
  · exact contains_iff_mem (pullRequestLabels pr) (str "do-not-merge/hold")

/-- C9 witness: on the concrete open pull request prHold, whose only label is
named "hold", the advisory is still emitted. -/
theorem c9_holdLabel_witness :
    hasHoldAdvisory (statusCheckDiags prHold (str "IR-1") (str "Done")) = true := by
  have h := (c9_holdLabel_exact prHold (str "IR-1") (str "Done") rfl).1
  rw [h]
  decide

/-! ## C10: equivalence of the two source versions of the reconciler -/

/-- C10: the link reconcilers of src/main.go and src/unnamed/part_000 agree on
the linking decision: on any pull request, issue key and fetched remote-link
list they both skip or both create, and when creating they submit remote
links with identical URL, title and icon; their title stripping also
coincides. (The part_000 version differs only by additionally fetching the
issue and emitting status and hold diagnostics.) -/
theorem c10_mainGo_equivalence (pr : PullRequest) (issueKey : Str)
    (links : List RemoteLink) :
    MainGo.linkDecision pr issueKey links = linkDecision pr issueKey links ∧
    MainGo.residualTitle issueKey pr.title = residualTitle issueKey pr.title ∧
    (∀ t, MainGo.newRemoteLink pr t = newRemoteLink pr t) :=
  ⟨rfl, rfl, fun _ => rfl⟩
